import Mathlib

/-!
Shallow embedding of the quiz-submission core of the Quiz_WebApp backend
(src/models/models.js, src/utils/calculateResult.js), together with proofs
about its window gating, scoring, gatekeeping, and result-lookup behaviour.

Timestamps are modelled as natural numbers of milliseconds since the epoch;
durations are natural numbers of minutes, as stored by the quiz schema.
JavaScript `Date.getMinutes`/`Date.setMinutes` are modelled on that timeline.
Document ids are strings.
-/

namespace QuizApp

/-- Roles resolved by the auth middleware (src/middleware/auth.js). -/
inductive Role
  | teacher
  | student
deriving DecidableEq, Repr

/-- The decoded bearer principal attached as `req.user`. -/
structure Principal where
  id : String
  role : Role
deriving DecidableEq, Repr

/-- `optionSchema` (models.js:21-24): option text plus correctness flag. -/
structure QOption where
  id : String
  option_text : String
  is_correct : Bool
deriving DecidableEq, Repr

/-- `questionSchema` (models.js:26-30). -/
structure Question where
  id : String
  question_text : String
  options : List QOption
  is_multiple_choice : Bool
deriving DecidableEq, Repr

/-- `quizSchema` (models.js:32-38): `start_date` in ms, `duration` in minutes. -/
structure Quiz where
  id : String
  quiz_name : String
  class_id : String
  start_date : Nat
  duration : Nat
  questions : List Question
deriving DecidableEq, Repr

/-- `classSchema` (models.js:40-45); the embedded quiz copies are not needed
by the routes modelled here, which fetch quizzes from the standalone
collection. -/
structure ClassRec where
  id : String
  class_name : String
  teacher_id : String
  students : List String
deriving DecidableEq, Repr

/-- `studentResponseSchema` (models.js:47-56): each stored response pairs a
question id with the list of selected option ids. -/
structure StudentResponseRec where
  student_id : String
  quiz_id : String
  responses : List (String × List String)
deriving DecidableEq, Repr

/-- `studentResultSchema` (models.js:58-64). -/
structure StudentResultRec where
  student_id : String
  quiz_id : String
  score : Nat
  out_of : Nat
deriving DecidableEq, Repr

/-- The document store: the collections the modelled routes touch. -/
structure Store where
  classes : List ClassRec
  quizzes : List Quiz
  studentResponses : List StudentResponseRec
  studentResults : List StudentResultRec
deriving DecidableEq, Repr

/-- A request-body `selected_options` value: the JSON field may be absent,
a scalar, or an array of option-id strings. -/
inductive SelVal
  | missing
  | scalar (n : Int)
  | str (s : String)
  | arr (l : List String)
deriving DecidableEq, Repr

/-- One element of the request body's `responses` array; `question_id` may be
absent (`none`) and `""` is falsy in the handler's check. -/
structure SubmittedResponse where
  question_id : Option String
  selected_options : SelVal
deriving DecidableEq, Repr

/-- The body of `POST /:classId/quizzes/:quizId/responses`. -/
structure SubmitBody where
  student_id : String
  responses : List SubmittedResponse
deriving DecidableEq, Repr

/-- JS `date.getMinutes()` on the ms timeline: the minutes-of-hour field. -/
def jsGetMinutes (t : Nat) : Nat := t / 60000 % 60

/-- JS `date.setMinutes(m)`: keep the hour prefix and the seconds/ms suffix,
replace the minutes field by `m` (overflow rolls into later hours). -/
def jsSetMinutes (t m : Nat) : Nat :=
  t / 3600000 * 3600000 + m * 60000 + t % 60000

/-- The three-way classification of `now` against a quiz window. -/
inductive WindowState
  | notStarted
  | active
  | ended
deriving DecidableEq, Repr

/-- The window classification inlined in the student branch of
`GET /:classId/quizzes/:quizId` (models.js:1169-1181): `endDate` is built
from `new Date()` (i.e. `now`) and `setMinutes(start.getMinutes() + duration)`;
ended iff `now > start && now > endDate`, else not-started iff `now < start`,
else active. -/
def viewWindowState (now start_date duration : Nat) : WindowState :=
  let endDate := jsSetMinutes now (jsGetMinutes start_date + duration)
  if now > start_date ∧ now > endDate then .ended
  else if now < start_date then .notStarted
  else .active

/-- The window classification inlined in
`POST /:classId/quizzes/:quizId/responses` (models.js:1377-1390), transcribed
from that call site; textually the same computation as the view site. -/
def submitWindowState (now start_date duration : Nat) : WindowState :=
  let endDate := jsSetMinutes now (jsGetMinutes start_date + duration)
  if now > start_date ∧ now > endDate then .ended
  else if now < start_date then .notStarted
  else .active

/-- The window the spec prescribes: `ACTIVE` iff
`start_date <= now <= start_date + duration` minutes. -/
def specActive (now start_date duration : Nat) : Prop :=
  start_date ≤ now ∧ now ≤ start_date + duration * 60000

instance (now start_date duration : Nat) :
    Decidable (specActive now start_date duration) := by
  unfold specActive; infer_instance

/-- `Quiz.findById` modelled over the store's quiz collection. -/
def findQuiz (store : Store) (quizId : String) : Option Quiz :=
  store.quizzes.find? (fun q => q.id == quizId)

/-- `Class.findById`. -/
def findClass (store : Store) (classId : String) : Option ClassRec :=
  store.classes.find? (fun c => c.id == classId)

/-- `StudentResponse.findOne({student_id, quiz_id})`. -/
def findStudentResponse (store : Store) (sid qid : String) :
    Option StudentResponseRec :=
  store.studentResponses.find? (fun r => r.student_id == sid && r.quiz_id == qid)

/-- `StudentResult.findOne({student_id, quiz_id})`. -/
def findStudentResult (store : Store) (sid qid : String) :
    Option StudentResultRec :=
  store.studentResults.find? (fun r => r.student_id == sid && r.quiz_id == qid)

/-- `arraysEqual` (calculateResult.js:40-48): length check, then index-by-index
strict equality. -/
def arraysEqual (arr1 arr2 : List String) : Bool :=
  if arr1.length != arr2.length then false
  else (arr1.zip arr2).all (fun p => p.1 == p.2)

/-- One entry of the `correctResponses` array built in the POST handler. -/
structure CorrectResponse where
  question_id : String
  selected_options : List String
deriving DecidableEq, Repr

/-- `correctResponses` (models.js:1408-1411): per question, the ids of the
options flagged `is_correct`, in stored order. -/
def correctResponsesOf (quiz : Quiz) : List CorrectResponse :=
  quiz.questions.map (fun question =>
    ⟨question.id, (question.options.filter (fun o => o.is_correct)).map
      (fun o => o.id)⟩)

/-- The score loop of `calculateResults` (calculateResult.js:11-26): for each
submitted response, `find` the correct-response entry with the same
`question_id`; if found and `arraysEqual` holds, increment the score. -/
def calcScore (correctResponses : List CorrectResponse)
    (submitted : List (String × List String)) : Nat :=
  submitted.foldl (fun score sr =>
    match correctResponses.find? (fun c => c.question_id == sr.1) with
    | some c => if arraysEqual c.selected_options sr.2 then score + 1 else score
    | none => score) 0

/-- The per-response validity check of the POST handler (models.js:1397-1402):
`question_id` must be truthy (present and non-empty) and `selected_options`
must pass `Array.isArray` (a falsy or scalar value fails). -/
def validResp (r : SubmittedResponse) : Bool :=
  match r.question_id, r.selected_options with
  | some s, .arr _ => !(s == "")
  | _, _ => false

/-- The `{question_id, selected_options}` pair the handler pushes onto
`allResponses` for a response that passed `validResp`. -/
def extractResp (r : SubmittedResponse) : String × List String :=
  (r.question_id.getD "",
   match r.selected_options with
   | .arr l => l
   | _ => [])

/-- Outcomes of the submit-responses route, one per distinct HTTP response. -/
inductive SubmitOutcome
  | forbiddenRole
  | internalError
  | quizNotFound
  | quizEnded
  | quizNotStarted
  | alreadySubmitted
  | malformedResponse
  | success (score out_of : Nat)
deriving DecidableEq, Repr

/-- `POST /:classId/quizzes/:quizId/responses` (models.js:1365-1428), returning
the HTTP outcome and the store after any writes.

Faithfulness notes:
* the handler computes `endDate` from `quiz.start_date` (models.js:1379)
  BEFORE its `if(!quiz)` check, so an absent quiz throws a `TypeError` that the
  `catch` turns into a 500 — hence the `internalError` outcome on `none`;
* the validation loop returns 400 at the first invalid element; no write has
  happened at that point, so this equals rejecting when any element is invalid;
* `calculateResults` is called on the raw `responses` array, every element of
  which has by then passed `validResp`, so its scored content is exactly
  `body.responses.map extractResp` (the same pairs as `allResponses`);
* `classId` and `decoded.id` are never read by this handler. -/
def postResponses (store : Store) (decoded : Option Principal)
    (_classId quizId : String) (body : SubmitBody) (now : Nat) :
    SubmitOutcome × Store :=
  match decoded with
  | none => (.forbiddenRole, store)
  | some p =>
    if p.role ≠ .student then (.forbiddenRole, store)
    else
      match findQuiz store quizId with
      | none => (.internalError, store)
      | some quiz =>
        match submitWindowState now quiz.start_date quiz.duration with
        | .ended => (.quizEnded, store)
        | .notStarted => (.quizNotStarted, store)
        | .active =>
          match findStudentResponse store body.student_id quizId with
          | some _ => (.alreadySubmitted, store)
          | none =>
            if body.responses.any (fun r => !validResp r) then
              (.malformedResponse, store)
            else
              let allResponses := body.responses.map extractResp
              let correctResponses := correctResponsesOf quiz
              let numberOfQuestions := quiz.questions.length
              let respRec : StudentResponseRec :=
                ⟨body.student_id, quizId, allResponses⟩
              let score := calcScore correctResponses allResponses
              let resRec : StudentResultRec :=
                ⟨body.student_id, quizId, score, numberOfQuestions⟩
              (.success score numberOfQuestions,
               { store with
                  studentResponses := store.studentResponses ++ [respRec],
                  studentResults := store.studentResults ++ [resRec] })

/-- Outcomes of the view-quiz route. -/
inductive GetQuizOutcome
  | forbiddenRole
  | classNotFound
  | notAuthorized
  | quizNotFound
  | quizPassed
  | quizNotStartedErr
  | alreadyTaken
  | ok (quiz : Quiz)
deriving DecidableEq, Repr

/-- `GET /:classId/quizzes/:quizId` (models.js:1129-1190). On success the
handler responds with `res.json({ quiz })`: the stored quiz document,
unmodified. The student branch gates on the window classification, then on an
existing `StudentResponse` for `(decoded.id, quizId)` — the CALLER's id. -/
def getQuiz (store : Store) (decoded : Option Principal)
    (classId quizId : String) (now : Nat) : GetQuizOutcome :=
  match decoded with
  | none => .forbiddenRole
  | some p =>
    if p.role ≠ .teacher ∧ p.role ≠ .student then .forbiddenRole
    else
      match findClass store classId with
      | none => .classNotFound
      | some myClass =>
        if !(myClass.teacher_id == p.id || myClass.students.contains p.id) then
          .notAuthorized
        else
          match findQuiz store quizId with
          | none => .quizNotFound
          | some quiz =>
            if p.role = .student then
              match viewWindowState now quiz.start_date quiz.duration with
              | .ended => .quizPassed
              | .notStarted => .quizNotStartedErr
              | .active =>
                match findStudentResponse store p.id quizId with
                | some _ => .alreadyTaken
                | none => .ok quiz
            else .ok quiz

/-- Outcomes of the single-result route. -/
inductive ResultOutcome
  | notFound
  | ok (score out_of : Nat)
deriving DecidableEq, Repr

/-- `GET /:classId/quizzes/:quizId/results/:studentId` (models.js:1476-1489):
behind the auth middleware but reads only the path parameters; the principal
and `classId` are never consulted. -/
def getResult (store : Store) (_decoded : Principal)
    (_classId quizId studentId : String) : ResultOutcome :=
  match findStudentResult store studentId quizId with
  | none => .notFound
  | some r => .ok r.score r.out_of

/-! ### Interleaving model of concurrent submissions

The POST handler's duplicate check (`StudentResponse.findOne`, models.js:1390)
and its two writes (`studentResponseinfo.save()`, models.js:1420, and the
`studentResult.save()` inside `calculateResults`, calculateResult.js:35) are
separate awaited store operations.  Each in-flight request is modelled as a
process that performs those three store accesses as atomic steps, with the
shared store as the only shared state. -/

/-- The StudentResponse and StudentResult records an admitted submission
writes — the same records `postResponses` appends. -/
def admittedWrites (quiz : Quiz) (quizId : String) (body : SubmitBody) :
    StudentResponseRec × StudentResultRec :=
  let allResponses := body.responses.map extractResp
  let score := calcScore (correctResponsesOf quiz) allResponses
  (⟨body.student_id, quizId, allResponses⟩,
   ⟨body.student_id, quizId, score, quiz.questions.length⟩)

/-- Progress of one in-flight submission request through its store accesses. -/
inductive Phase
  | start
  | checked (found : Bool)
  | respWritten
  | done
deriving DecidableEq, Repr

/-- One atomic store access of an in-flight request: run the duplicate check,
or (if it saw no prior response) write the StudentResponse, then the
StudentResult.  A request whose check found a prior response rejects with
no write. -/
def procStep (quiz : Quiz) (quizId : String) (body : SubmitBody)
    (store : Store) (ph : Phase) : Store × Phase :=
  match ph with
  | .start =>
      (store, .checked (findStudentResponse store body.student_id quizId).isSome)
  | .checked true => (store, .done)
  | .checked false =>
      ({ store with studentResponses :=
          store.studentResponses ++ [(admittedWrites quiz quizId body).1] },
       .respWritten)
  | .respWritten =>
      ({ store with studentResults :=
          store.studentResults ++ [(admittedWrites quiz quizId body).2] },
       .done)
  | .done => (store, .done)

/-- Two concurrent submission requests for the same quiz and body, plus the
shared store. -/
structure TwoSubmissions where
  store : Store
  ph0 : Phase
  ph1 : Phase
deriving DecidableEq, Repr

/-- Run a schedule: each element picks which of the two requests performs its
next atomic store access (`false` = request 0, `true` = request 1). -/
def runSchedule (quiz : Quiz) (quizId : String) (body : SubmitBody) :
    List Bool → TwoSubmissions → TwoSubmissions
  | [], s => s
  | pick :: rest, s =>
    if pick then
      let (st, ph) := procStep quiz quizId body s.store s.ph1
      runSchedule quiz quizId body rest ⟨st, s.ph0, ph⟩
    else
      let (st, ph) := procStep quiz quizId body s.store s.ph0
      runSchedule quiz quizId body rest ⟨st, ph, s.ph1⟩

/-- Number of StudentResponse records stored for a (student, quiz) pair. -/
def countResponsesFor (store : Store) (sid qid : String) : Nat :=
  (store.studentResponses.filter
    (fun r => r.student_id == sid && r.quiz_id == qid)).length

/-- Number of StudentResult records stored for a (student, quiz) pair. -/
def countResultsFor (store : Store) (sid qid : String) : Nat :=
  (store.studentResults.filter
    (fun r => r.student_id == sid && r.quiz_id == qid)).length

/-! ### Concrete fixtures -/

/-- A store with no documents. -/
def emptyStore : Store := ⟨[], [], [], []⟩

/-- One-question quiz: question `"q1"` whose options `"o1"` and `"o2"` are
both flagged correct, stored in the order `[o1, o2]`; window starts at
3600000 ms and lasts 30 minutes. -/
def demoQuiz : Quiz :=
  { id := "qz1", quiz_name := "demo", class_id := "c1",
    start_date := 3600000, duration := 30,
    questions := [⟨"q1", "pick all that apply",
      [⟨"o1", "A", true⟩, ⟨"o2", "B", true⟩], true⟩] }

/-- Class `"c1"` owned by teacher `"t1"` with students alice and bob. -/
def demoClass : ClassRec :=
  { id := "c1", class_name := "demo class", teacher_id := "t1",
    students := ["alice", "bob"] }

/-- Store holding the demo class and quiz, no submissions yet. -/
def storeWithQuiz : Store := ⟨[demoClass], [demoQuiz], [], []⟩

/-- Same store after student `"s1"` has a stored StudentResponse for the
demo quiz. -/
def storeTaken : Store :=
  ⟨[demoClass], [demoQuiz], [⟨"s1", "qz1", [("q1", ["o1", "o2"])]⟩], []⟩

/-- Same store after student `"alice"` has a stored StudentResponse for the
demo quiz. -/
def storeAliceTook : Store :=
  ⟨[demoClass], [demoQuiz], [⟨"alice", "qz1", [("q1", ["o1", "o2"])]⟩], []⟩

/-- A well-formed body answering the demo question correctly. -/
def goodBody : SubmitBody :=
  ⟨"s1", [⟨some "q1", .arr ["o1", "o2"]⟩]⟩

/-- A body whose single response has a scalar `selected_options`. -/
def badBody : SubmitBody :=
  ⟨"s1", [⟨some "q1", .scalar 3⟩]⟩

/-- A well-formed body with one correct answer and one response whose
`question_id` matches no question of the demo quiz. -/
def mixedBody : SubmitBody :=
  ⟨"s1", [⟨some "q1", .arr ["o1", "o2"]⟩, ⟨some "qX", .arr ["o1"]⟩]⟩

/-- A quiz starting at the epoch with a 30-minute window and no questions. -/
def quizAtEpoch : Quiz :=
  { id := "qzA", quiz_name := "epoch quiz", class_id := "c1",
    start_date := 0, duration := 30, questions := [] }

/-- Store holding only `quizAtEpoch`. -/
def storeEpoch : Store := ⟨[], [quizAtEpoch], [], []⟩

/-! ## Helper lemmas -/

theorem zip_all_eq_iff : ∀ (a b : List String), a.length = b.length →
    ((((a.zip b).all fun p => p.1 == p.2) = true) ↔ a = b)
  | [], [] => fun _ => by simp
  | [], _ :: _ => fun h => by simp at h
  | _ :: _, [] => fun h => by simp at h
  | x :: xs, y :: ys => fun h => by
    have ih := zip_all_eq_iff xs ys (by simpa using h)
    simp [ih]

/-- `arraysEqual` judges exactly element-by-element list equality. -/
theorem arraysEqual_eq_true_iff (a b : List String) :
    arraysEqual a b = true ↔ a = b := by
  unfold arraysEqual
  split
  · rename_i h
    simp only [bne_iff_ne, ne_eq] at h
    simp only [Bool.false_eq_true, false_iff]
    exact fun hab => h (by rw [hab])
  · rename_i h
    simp only [bne_iff_ne, ne_eq, not_not] at h
    exact zip_all_eq_iff a b h

theorem bool_eq_of_iff {x y : Bool} (h : x = true ↔ y = true) : x = y := by
  cases x <;> cases y <;> simp_all

/-- A response passes the handler's validity check exactly when it has a
present, non-empty `question_id` and an array `selected_options`. -/
theorem validResp_iff (r : SubmittedResponse) :
    validResp r = true ↔
      ∃ s l, r.question_id = some s ∧ s ≠ "" ∧ r.selected_options = .arr l := by
  obtain ⟨qid, sel⟩ := r
  cases qid <;> cases sel <;> simp [validResp]

theorem calcScore_foldl (cs : List CorrectResponse) :
    ∀ (subs : List (String × List String)) (a : Nat),
      subs.foldl (fun score sr =>
        match cs.find? (fun c => c.question_id == sr.1) with
        | some c => if arraysEqual c.selected_options sr.2 then score + 1 else score
        | none => score) a
      = a + subs.countP (fun sr =>
          match cs.find? (fun c => c.question_id == sr.1) with
          | some c => arraysEqual c.selected_options sr.2
          | none => false)
  | [], a => by simp
  | sr :: subs, a => by
    rw [List.foldl_cons, List.countP_cons]
    cases hf : cs.find? (fun c => c.question_id == sr.1) with
    | none => simp only [hf]; rw [calcScore_foldl cs subs a]; simp
    | some c =>
      cases hA : arraysEqual c.selected_options sr.2 with
      | false =>
        have hA' : ¬ (arraysEqual c.selected_options sr.2 = true) := by simp [hA]
        simp only [hf]
        simp only [if_neg hA']
        rw [calcScore_foldl cs subs a]
        omega
      | true =>
        simp only [hf]
        simp only [if_pos hA]
        rw [calcScore_foldl cs subs (a + 1)]
        omega

/-- The score loop counts the submitted responses whose matched quiz question
(if any) has an `arraysEqual` answer sequence. -/
theorem calcScore_eq_countP (cs : List CorrectResponse)
    (subs : List (String × List String)) :
    calcScore cs subs = subs.countP (fun sr =>
      match cs.find? (fun c => c.question_id == sr.1) with
      | some c => arraysEqual c.selected_options sr.2
      | none => false) := by
  unfold calcScore
  rw [calcScore_foldl]
  simp

/-- With pairwise-distinct keys, `find?`-then-test equals an existential scan. -/
theorem find?_match_eq_any (k : String) (p : CorrectResponse → Bool) :
    ∀ (cs : List CorrectResponse),
      (cs.map fun c => c.question_id).Nodup →
      ((match cs.find? (fun c => c.question_id == k) with
        | some c => p c
        | none => false)
       = cs.any fun c => (c.question_id == k) && p c)
  | [] => fun _ => rfl
  | c :: cs => fun hnd => by
    simp only [List.map_cons, List.nodup_cons, List.mem_map] at hnd
    by_cases hk : (c.question_id == k) = true
    · have hkeq : c.question_id = k := by simpa using hk
      rw [show (c :: cs).find? (fun x => x.question_id == k) = some c by
        simp [List.find?, hk]]
      have htail : (cs.any fun x => (x.question_id == k) && p x) = false := by
        rw [List.any_eq_false]
        intro x hx
        simp only [Bool.and_eq_true, beq_iff_eq, not_and]
        intro hxk _
        exact hnd.1 ⟨x, hx, hxk.trans hkeq.symm⟩
      simp [List.any_cons, htail, hk]
    · have hk' : (c.question_id == k) = false := by
        cases hv : c.question_id == k
        · rfl
        · exact absurd hv hk
      rw [show (c :: cs).find? (fun x => x.question_id == k)
            = cs.find? (fun x => x.question_id == k) by
        simp [List.find?, hk']]
      rw [find?_match_eq_any k p cs hnd.2]
      simp [List.any_cons, hk]

/-- For a valid submitted response, the handler's scoring test agrees with the
claim-level predicate over the quiz's questions. -/
theorem correct_pred_pointwise (quiz : Quiz)
    (hnd : (quiz.questions.map fun q => q.id).Nodup)
    (r : SubmittedResponse) (hv : validResp r = true) :
    (match (correctResponsesOf quiz).find?
        (fun c => c.question_id == (extractResp r).1) with
     | some c => arraysEqual c.selected_options (extractResp r).2
     | none => false)
    = quiz.questions.any (fun qq =>
        (r.question_id == some qq.id) &&
        (r.selected_options == SelVal.arr
          ((qq.options.filter fun o => o.is_correct).map fun o => o.id))) := by
  obtain ⟨s, l, hqid, hs, hsel⟩ := (validResp_iff r).mp hv
  have he : extractResp r = (s, l) := by simp [extractResp, hqid, hsel]
  rw [he]
  have hnd' : ((correctResponsesOf quiz).map fun c => c.question_id).Nodup := by
    simpa [correctResponsesOf, List.map_map, Function.comp] using hnd
  rw [find?_match_eq_any s (fun c => arraysEqual c.selected_options l) _ hnd']
  simp only [hqid, hsel]
  apply bool_eq_of_iff
  simp only [List.any_eq_true, correctResponsesOf, List.mem_map, Bool.and_eq_true,
    beq_iff_eq, arraysEqual_eq_true_iff, Option.some.injEq, SelVal.arr.injEq]
  constructor
  · rintro ⟨c, ⟨qq, hqq, rfl⟩, h1, h2⟩
    exact ⟨qq, hqq, h1.symm, h2.symm⟩
  · rintro ⟨qq, hqq, h1, h2⟩
    exact ⟨_, ⟨qq, hqq, rfl⟩, h1.symm, h2.symm⟩

/-- Reduction of the POST handler on an admitted submission: the outcome is
`success` with the loop's score, and the store gains exactly one
StudentResponse and one StudentResult record. -/
theorem postResponses_admitted (store : Store) (p : Principal)
    (classId quizId : String) (body : SubmitBody) (now : Nat) (quiz : Quiz)
    (hrole : p.role = .student)
    (hq : findQuiz store quizId = some quiz)
    (hw : submitWindowState now quiz.start_date quiz.duration = .active)
    (hd : findStudentResponse store body.student_id quizId = none)
    (hv : ∀ r ∈ body.responses, validResp r = true) :
    postResponses store (some p) classId quizId body now =
      (.success (calcScore (correctResponsesOf quiz) (body.responses.map extractResp))
         quiz.questions.length,
       { store with
          studentResponses := store.studentResponses ++
            [⟨body.student_id, quizId, body.responses.map extractResp⟩],
          studentResults := store.studentResults ++
            [⟨body.student_id, quizId,
              calcScore (correctResponsesOf quiz) (body.responses.map extractResp),
              quiz.questions.length⟩] }) := by
  have h1 : ¬ (p.role ≠ Role.student) := by simp [hrole]
  have h2 : (body.responses.any fun r => !validResp r) = false := by
    rw [List.any_eq_false]
    intro r hr
    simp [hv r hr]
  simp only [postResponses, if_neg h1, hq, hw, hd, h2, Bool.false_eq_true, if_false]

/-- On an admitted, all-valid submission the stored score equals the count of
submitted responses matching some quiz question with the exact stored
correct-option sequence. -/
theorem calcScore_extract_eq_countP (quiz : Quiz) (body : SubmitBody)
    (hnd : (quiz.questions.map fun q => q.id).Nodup)
    (hv : ∀ r ∈ body.responses, validResp r = true) :
    calcScore (correctResponsesOf quiz) (body.responses.map extractResp)
      = body.responses.countP (fun r =>
          quiz.questions.any fun qq =>
            (r.question_id == some qq.id) &&
            (r.selected_options == SelVal.arr
              ((qq.options.filter fun o => o.is_correct).map fun o => o.id))) := by
  rw [calcScore_eq_countP, List.countP_map]
  refine List.countP_congr (fun r hr => ?_)
  rw [Function.comp_apply, correct_pred_pointwise quiz hnd r (hv r hr)]

/-- Every run of the POST handler either leaves the store unchanged, or — when
its duplicate check saw no StudentResponse for `(body.student_id, quizId)` —
appends exactly one StudentResponse and one StudentResult for that pair. -/
theorem postResponses_store_shape (store : Store) (decoded : Option Principal)
    (classId quizId : String) (body : SubmitBody) (now : Nat) :
    (postResponses store decoded classId quizId body now).2 = store ∨
    (findStudentResponse store body.student_id quizId = none ∧
     ∃ (rs : List (String × List String)) (sc n : Nat),
       (postResponses store decoded classId quizId body now).2 =
         { store with
            studentResponses := store.studentResponses ++
              [⟨body.student_id, quizId, rs⟩],
            studentResults := store.studentResults ++
              [⟨body.student_id, quizId, sc, n⟩] }) := by
  cases decoded with
  | none => exact Or.inl rfl
  | some p =>
    by_cases h1 : p.role ≠ .student
    · left
      simp [postResponses, if_pos h1]
    · cases hq : findQuiz store quizId with
      | none =>
        left
        simp [postResponses, if_neg h1, hq]
      | some quiz =>
        cases hw : submitWindowState now quiz.start_date quiz.duration with
        | ended =>
          left
          simp [postResponses, if_neg h1, hq, hw]
        | notStarted =>
          left
          simp [postResponses, if_neg h1, hq, hw]
        | active =>
          cases hd : findStudentResponse store body.student_id quizId with
          | some r =>
            left
            simp [postResponses, if_neg h1, hq, hw, hd]
          | none =>
            by_cases hb : (body.responses.any fun r => !validResp r) = true
            · have hb' : ∃ x ∈ body.responses, validResp x = false := by simpa using hb
              left
              simp [postResponses, if_neg h1, hq, hw, hd, hb']
            · have hb' : ¬ ∃ x ∈ body.responses, validResp x = false := by simpa using hb
              right
              refine ⟨rfl, body.responses.map extractResp,
                calcScore (correctResponsesOf quiz) (body.responses.map extractResp),
                quiz.questions.length, ?_⟩
              simp [postResponses, if_neg h1, hq, hw, hd, hb']

/-- A pair with no stored StudentResponse has response count zero. -/
theorem countResponsesFor_zero (store : Store) (s q : String)
    (h : findStudentResponse store s q = none) :
    countResponsesFor store s q = 0 := by
  unfold findStudentResponse at h
  rw [List.find?_eq_none] at h
  unfold countResponsesFor
  rw [List.filter_eq_nil_iff.mpr (fun a ha => by simpa using h a ha)]
  rfl

/-- A successful POST wrote exactly one StudentResponse and one StudentResult,
both keyed on the request body's `student_id`. -/
theorem postResponses_success_writes (store : Store) (d : Option Principal)
    (classId quizId : String) (body : SubmitBody) (now : Nat)
    (sc n : Nat) (st : Store)
    (h : postResponses store d classId quizId body now = (.success sc n, st)) :
    st.studentResponses = store.studentResponses ++
      [⟨body.student_id, quizId, body.responses.map extractResp⟩] ∧
    st.studentResults = store.studentResults ++
      [⟨body.student_id, quizId, sc, n⟩] := by
  cases d with
  | none => simp [postResponses] at h
  | some p =>
    by_cases h1 : p.role ≠ .student
    · simp [postResponses, if_pos h1] at h
    · cases hq : findQuiz store quizId with
      | none => simp [postResponses, if_neg h1, hq] at h
      | some quiz =>
        cases hw : submitWindowState now quiz.start_date quiz.duration with
        | ended => simp [postResponses, if_neg h1, hq, hw] at h
        | notStarted => simp [postResponses, if_neg h1, hq, hw] at h
        | active =>
          cases hd : findStudentResponse store body.student_id quizId with
          | some r => simp [postResponses, if_neg h1, hq, hw, hd] at h
          | none =>
            by_cases hb : (body.responses.any fun r => !validResp r) = true
            · have hb' : ∃ x ∈ body.responses, validResp x = false := by simpa using hb
              simp [postResponses, if_neg h1, hq, hw, hd, hb'] at h
            · have hb' : ¬ ∃ x ∈ body.responses, validResp x = false := by simpa using hb
              simp [postResponses, if_neg h1, hq, hw, hd, hb', Prod.mk.injEq] at h
              obtain ⟨⟨hsc, hn⟩, hst⟩ := h
              subst hsc
              subst hn
              rw [← hst]
              exact ⟨rfl, rfl⟩

/-- Bridge between the interleaving model and the handler: one request run to
completion alone performs exactly the handler's admitted-path writes. -/
theorem singleRun_matches_postResponses (store : Store) (p : Principal)
    (classId quizId : String) (body : SubmitBody) (now : Nat) (quiz : Quiz)
    (hrole : p.role = .student)
    (hq : findQuiz store quizId = some quiz)
    (hw : submitWindowState now quiz.start_date quiz.duration = .active)
    (hd : findStudentResponse store body.student_id quizId = none)
    (hv : ∀ r ∈ body.responses, validResp r = true) :
    (runSchedule quiz quizId body [false, false, false] ⟨store, .start, .start⟩).store
      = (postResponses store (some p) classId quizId body now).2 := by
  rw [postResponses_admitted store p classId quizId body now quiz hrole hq hw hd hv]
  simp [runSchedule, procStep, hd, admittedWrites]

/-! ## Claim theorems -/

/-- C1: the claim says the submit gate is ACTIVE iff
`start_date ≤ now ≤ start_date + duration` minutes.  The code instead builds
`endDate` from the CURRENT time (`new Date()` with
`setMinutes(start.getMinutes() + duration)`, models.js:1378-1379).  Concretely:
a quiz starting at the epoch with a 30-minute duration, queried two hours
later, is past the claimed end (`0 + 30·60000 < 7200000`), so the claim
requires ENDED — yet the gate classifies ACTIVE and the handler admits the
submission. -/
theorem submit_window_admits_after_spec_end :
    submitWindowState 7200000 0 30 = .active
    ∧ ¬ specActive 7200000 0 30
    ∧ (0 + 30 * 60000 : Nat) < 7200000
    ∧ (postResponses storeEpoch (some ⟨"alice", .student⟩) "c1" "qzA"
        ⟨"s1", []⟩ 7200000).1 = .success 0 0 := by
  refine ⟨by decide, by decide, by decide, by decide⟩

/-- C2: on an admitted, well-formed submission to a quiz with pairwise-distinct
question ids, the returned score counts exactly the submitted responses whose
`question_id` matches a quiz question and whose `selected_options` equal that
question's stored correct-option sequence; submitted responses matching no
question contribute nothing, unanswered questions add nothing, and `out_of` is
the quiz's full question count. -/
theorem submission_score_counts_matching_responses (store : Store) (p : Principal)
    (classId quizId : String) (body : SubmitBody) (now : Nat) (quiz : Quiz)
    (hrole : p.role = .student)
    (hq : findQuiz store quizId = some quiz)
    (hw : submitWindowState now quiz.start_date quiz.duration = .active)
    (hd : findStudentResponse store body.student_id quizId = none)
    (hv : ∀ r ∈ body.responses, validResp r = true)
    (hnd : (quiz.questions.map fun q => q.id).Nodup) :
    (postResponses store (some p) classId quizId body now).1
      = .success
          (body.responses.countP (fun r =>
            quiz.questions.any fun qq =>
              (r.question_id == some qq.id) &&
              (r.selected_options == SelVal.arr
                ((qq.options.filter fun o => o.is_correct).map fun o => o.id))))
          quiz.questions.length := by
  rw [postResponses_admitted store p classId quizId body now quiz hrole hq hw hd hv]
  rw [calcScore_extract_eq_countP quiz body hnd hv]

/-- C2 witness: the two-response demo submission (one exact match, one response
aimed at a question the quiz does not have) scores by the counting formula. -/
theorem submission_score_counts_matching_responses_witness :
    (postResponses storeWithQuiz (some ⟨"alice", .student⟩) "c1" "qz1"
        mixedBody 3600000).1
      = .success
          (mixedBody.responses.countP (fun r =>
            demoQuiz.questions.any fun qq =>
              (r.question_id == some qq.id) &&
              (r.selected_options == SelVal.arr
                ((qq.options.filter fun o => o.is_correct).map fun o => o.id))))
          demoQuiz.questions.length :=
  submission_score_counts_matching_responses storeWithQuiz ⟨"alice", .student⟩
    "c1" "qz1" mixedBody 3600000 demoQuiz rfl (by decide) (by decide) (by decide)
    (by decide) (by decide)

/-- C3: a response is judged correct iff its `selected_options` equal the
stored correct-option sequence element-by-element (`arraysEqual`,
calculateResult.js:40-48); and concretely, submitting the demo question's two
correct option ids in the reversed order — the same set of ids — scores 0,
while the stored order scores 1. -/
theorem scoring_is_order_sensitive :
    (∀ (stored submitted : List String),
       arraysEqual stored submitted = true ↔ stored = submitted)
    ∧ List.Perm ["o2", "o1"] ["o1", "o2"]
    ∧ calcScore (correctResponsesOf demoQuiz) [("q1", ["o2", "o1"])] = 0
    ∧ calcScore (correctResponsesOf demoQuiz) [("q1", ["o1", "o2"])] = 1 :=
  ⟨arraysEqual_eq_true_iff, by decide, by decide, by decide⟩

/-- C4: the claim's first gate step fails.  The handler dereferences
`quiz.start_date` (models.js:1379) before its `if(!quiz)` check, so a request
naming an absent quiz throws and yields the 500 handler (`internalError`),
never `quizNotFound`.  The remaining order holds on concrete runs: with a quiz
present, ENDED is rejected before the duplicate check, NOT_STARTED next, then
a prior StudentResponse gives `alreadySubmitted`, and otherwise the submission
is admitted. -/
theorem missing_quiz_crashes_and_gate_order :
    (postResponses emptyStore (some ⟨"alice", .student⟩) "c1" "qz1"
        goodBody 3600000).1 = .internalError
    ∧ (postResponses emptyStore (some ⟨"alice", .student⟩) "c1" "qz1"
        goodBody 3600000).1 ≠ .quizNotFound
    ∧ (postResponses storeTaken (some ⟨"alice", .student⟩) "c1" "qz1"
        goodBody 9600000).1 = .quizEnded
    ∧ (postResponses storeWithQuiz (some ⟨"alice", .student⟩) "c1" "qz1"
        goodBody 1000000).1 = .quizNotStarted
    ∧ (postResponses storeTaken (some ⟨"alice", .student⟩) "c1" "qz1"
        goodBody 3600000).1 = .alreadySubmitted
    ∧ (postResponses storeWithQuiz (some ⟨"alice", .student⟩) "c1" "qz1"
        goodBody 3600000).1 = .success 1 1 := by
  refine ⟨by decide, by decide, by decide, by decide, by decide, by decide⟩

/-- C5: a submission batch containing a response that fails the validity check
(missing/empty `question_id`, or `selected_options` not an array) is rejected
whole with `malformedResponse`, and the store is returned unchanged: no
StudentResponse and no StudentResult is written, with no partial credit for
the well-formed rest of the batch. -/
theorem malformed_batch_rejected_without_writes (store : Store) (p : Principal)
    (classId quizId : String) (body : SubmitBody) (now : Nat) (quiz : Quiz)
    (hrole : p.role = .student)
    (hq : findQuiz store quizId = some quiz)
    (hw : submitWindowState now quiz.start_date quiz.duration = .active)
    (hd : findStudentResponse store body.student_id quizId = none)
    (r : SubmittedResponse) (hr : r ∈ body.responses)
    (hbad : validResp r = false) :
    postResponses store (some p) classId quizId body now
      = (.malformedResponse, store) := by
  have h1 : ¬ (p.role ≠ Role.student) := by simp [hrole]
  have h2 : (body.responses.any fun x => !validResp x) = true :=
    List.any_eq_true.mpr ⟨r, hr, by simp [hbad]⟩
  simp only [postResponses, if_neg h1, hq, hw, hd, h2, if_true]

/-- C5 witness: the batch whose single response carries a scalar
`selected_options` is rejected and writes nothing. -/
theorem malformed_batch_rejected_without_writes_witness :
    postResponses storeWithQuiz (some ⟨"alice", .student⟩) "c1" "qz1"
        badBody 3600000
      = (.malformedResponse, storeWithQuiz) :=
  malformed_batch_rejected_without_writes storeWithQuiz ⟨"alice", .student⟩
    "c1" "qz1" badBody 3600000 demoQuiz rfl (by decide) (by decide) (by decide)
    ⟨some "q1", .scalar 3⟩ (by decide) (by decide)

/-- C6 counterexample: the claim says a student's quiz view omits every
option's `is_correct` flag.  In fact the handler responds with
`res.json({ quiz })` (models.js:1187): student alice, passing every read gate,
receives the stored demo quiz itself, whose options carry `is_correct = true`
flags — the correct answers are fully revealed. -/
theorem student_view_includes_correct_flags :
    getQuiz storeWithQuiz (some ⟨"alice", .student⟩) "c1" "qz1" 3600000
      = .ok demoQuiz
    ∧ (demoQuiz.questions.any fun q => q.options.any fun o => o.is_correct)
      = true := by
  refine ⟨by decide, by decide⟩

/-- C6 (amended): whenever the view-quiz route returns a quiz to any caller —
student callers included — it returns the stored quiz document unmodified,
`is_correct` flags and all, rather than a redacted copy. -/
theorem student_view_returns_stored_quiz (store : Store) (d : Option Principal)
    (classId quizId : String) (now : Nat) (q : Quiz)
    (h : getQuiz store d classId quizId now = .ok q) :
    findQuiz store quizId = some q := by
  cases d with
  | none => simp [getQuiz] at h
  | some p =>
    by_cases hrT : p.role ≠ .teacher ∧ p.role ≠ .student
    · simp [getQuiz, if_pos hrT] at h
    · cases hc : findClass store classId with
      | none => simp [getQuiz, if_neg hrT, hc] at h
      | some myClass =>
        cases hauth : (!(myClass.teacher_id == p.id || myClass.students.contains p.id)) with
        | true =>
          have hauth' : ¬myClass.teacher_id = p.id ∧ p.id ∉ myClass.students := by
            simpa using hauth
          simp [getQuiz, if_neg hrT, hc, hauth'] at h
        | false =>
          have ha : ¬myClass.teacher_id = p.id → p.id ∈ myClass.students := by
            simpa using hauth
          have hcond : ¬(¬myClass.teacher_id = p.id ∧ p.id ∉ myClass.students) := by
            tauto
          cases hfq : findQuiz store quizId with
          | none => simp [getQuiz, if_neg hrT, hc, hcond, hfq] at h
          | some quiz =>
            cases hrole : p.role with
            | student =>
              cases hw : viewWindowState now quiz.start_date quiz.duration with
              | ended => simp [getQuiz, if_neg hrT, hc, hcond, hfq, hrole, hw] at h
              | notStarted => simp [getQuiz, if_neg hrT, hc, hcond, hfq, hrole, hw] at h
              | active =>
                cases hd : findStudentResponse store p.id quizId with
                | some r => simp [getQuiz, if_neg hrT, hc, hcond, hfq, hrole, hw, hd] at h
                | none =>
                  have hqe : quiz = q := by
                    simpa [getQuiz, if_neg hrT, hc, hcond, hfq, hrole, hw, hd] using h
                  subst hqe
                  rfl
            | teacher =>
              have hqe : quiz = q := by
                simpa [getQuiz, if_neg hrT, hc, hcond, hfq, hrole] using h
              subst hqe
              rfl

/-- C6 witness: alice's successful student view returns exactly the stored
demo quiz. -/
theorem student_view_returns_stored_quiz_witness :
    findQuiz storeWithQuiz "qz1" = some demoQuiz :=
  student_view_returns_stored_quiz storeWithQuiz (some ⟨"alice", .student⟩)
    "c1" "qz1" 3600000 demoQuiz (by decide)

/-- C7: the window classification transcribed from the view-quiz call site
(models.js:1169-1181) and the one transcribed from the submit-responses call
site (models.js:1377-1390) are the same function of
`(now, start_date, duration)`: every time is classified identically. -/
theorem view_and_submit_window_logic_agree (now start_date duration : Nat) :
    viewWindowState now start_date duration
      = submitWindowState now start_date duration := rfl

/-- C8 counterexample: the claim says no interleaving of two concurrent
submissions can yield two StudentResponse/StudentResult pairs.  Interleaving
two requests for the same `(s1, qz1)` pair so that both duplicate checks run
before either write (schedule 0,1,0,1,0,1 of the three store accesses each)
ends with TWO StudentResponse and TWO StudentResult records for the pair. -/
theorem interleaved_submissions_write_two_records :
    countResponsesFor (runSchedule demoQuiz "qz1" goodBody
        [false, true, false, true, false, true]
        ⟨storeWithQuiz, .start, .start⟩).store "s1" "qz1" = 2
    ∧ countResultsFor (runSchedule demoQuiz "qz1" goodBody
        [false, true, false, true, false, true]
        ⟨storeWithQuiz, .start, .start⟩).store "s1" "qz1" = 2 := by
  refine ⟨by decide, by decide⟩

/-- C8 (amended): when each submission request runs to completion without
interleaving, the at-most-one invariant is preserved: a full run of the POST
handler keeps every `(student, quiz)` pair at ≤ 1 StudentResponse and at most
as many StudentResults as StudentResponses (the duplicate check rejects once a
response exists; only interleaved concurrent runs break this, as the
counterexample shows). -/
theorem serial_submission_preserves_uniqueness (store : Store)
    (decoded : Option Principal) (classId quizId : String) (body : SubmitBody)
    (now : Nat) (sid qid : String)
    (h1 : countResponsesFor store sid qid ≤ 1)
    (h2 : countResultsFor store sid qid ≤ countResponsesFor store sid qid) :
    countResponsesFor (postResponses store decoded classId quizId body now).2 sid qid ≤ 1 ∧
    countResultsFor (postResponses store decoded classId quizId body now).2 sid qid ≤
      countResponsesFor (postResponses store decoded classId quizId body now).2 sid qid := by
  rcases postResponses_store_shape store decoded classId quizId body now with h | ⟨hd, rs, sc, n, h⟩
  · rw [h]
    exact ⟨h1, h2⟩
  · rw [h]
    by_cases hpair : body.student_id = sid ∧ quizId = qid
    · obtain ⟨hb, hqq⟩ := hpair
      subst hb
      subst hqq
      have hz : countResponsesFor store body.student_id quizId = 0 :=
        countResponsesFor_zero store _ _ hd
      have hz2 : countResultsFor store body.student_id quizId = 0 :=
        Nat.le_zero.mp (hz ▸ h2)
      unfold countResponsesFor at hz ⊢
      unfold countResultsFor at hz2 ⊢
      simp only [List.filter_append, List.length_append, hz, hz2]
      simp
    · rw [Decidable.not_and_iff_or_not] at hpair
      unfold countResponsesFor at h1 ⊢
      unfold countResultsFor at h2 ⊢
      have hna : (((StudentResponseRec.mk body.student_id quizId rs).student_id == sid)
          && ((StudentResponseRec.mk body.student_id quizId rs).quiz_id == qid)) = false := by
        rcases hpair with hp | hp <;> simp [hp]
      have hnb : (((StudentResultRec.mk body.student_id quizId sc n).student_id == sid)
          && ((StudentResultRec.mk body.student_id quizId sc n).quiz_id == qid)) = false := by
        rcases hpair with hp | hp <;> simp [hp]
      simp only [List.filter_append, List.length_append]
      simp only [List.filter_cons, hna, hnb]
      simp only [Bool.false_eq_true, if_false, List.filter_nil, List.length_nil, Nat.add_zero]
      exact ⟨h1, h2⟩

/-- C8 witness: a single admitted run from a store with no submissions keeps
the `(s1, qz1)` counts within the invariant. -/
theorem serial_submission_preserves_uniqueness_witness :
    countResponsesFor (postResponses storeWithQuiz (some ⟨"alice", .student⟩)
        "c1" "qz1" goodBody 3600000).2 "s1" "qz1" ≤ 1 ∧
    countResultsFor (postResponses storeWithQuiz (some ⟨"alice", .student⟩)
        "c1" "qz1" goodBody 3600000).2 "s1" "qz1" ≤
      countResponsesFor (postResponses storeWithQuiz (some ⟨"alice", .student⟩)
        "c1" "qz1" goodBody 3600000).2 "s1" "qz1" :=
  serial_submission_preserves_uniqueness storeWithQuiz (some ⟨"alice", .student⟩)
    "c1" "qz1" goodBody 3600000 "s1" "qz1" (by decide) (by decide)

/-- C9: the submit handler's behaviour is independent of the authenticated
caller's id once the role is student — two callers with different ids get
identical outcomes and identical stores; every successful submission writes
its StudentResponse and StudentResult keyed on the body-supplied `student_id`;
and the view-quiz attempt check, by contrast, keys on the caller's id: with a
response stored for alice, caller alice is refused (`alreadyTaken`) while
caller bob is served the quiz. -/
theorem submission_keyed_on_body_student_id :
    (∀ (store : Store) (id1 id2 classId quizId : String) (body : SubmitBody) (now : Nat),
       postResponses store (some ⟨id1, .student⟩) classId quizId body now =
       postResponses store (some ⟨id2, .student⟩) classId quizId body now)
    ∧ (∀ (store : Store) (d : Option Principal) (classId quizId : String)
         (body : SubmitBody) (now : Nat) (sc n : Nat) (st : Store),
         postResponses store d classId quizId body now = (.success sc n, st) →
         st.studentResponses = store.studentResponses ++
           [⟨body.student_id, quizId, body.responses.map extractResp⟩] ∧
         st.studentResults = store.studentResults ++
           [⟨body.student_id, quizId, sc, n⟩])
    ∧ (getQuiz storeAliceTook (some ⟨"alice", .student⟩) "c1" "qz1" 3600000
         = .alreadyTaken
       ∧ getQuiz storeAliceTook (some ⟨"bob", .student⟩) "c1" "qz1" 3600000
         = .ok demoQuiz) :=
  ⟨fun _ _ _ _ _ _ _ => rfl,
   fun store d classId quizId body now sc n st h =>
     postResponses_success_writes store d classId quizId body now sc n st h,
   by refine ⟨by decide, by decide⟩⟩

/-- C10: the single-result route reads only the path parameters — its outcome
is identical for every authenticated caller, whatever the id, role, class
membership or ownership; it returns the stored `{score, out_of}` whenever a
StudentResult exists for `(studentId, quizId)` and `notFound` otherwise. -/
theorem result_lookup_ignores_caller :
    (∀ (store : Store) (p1 p2 : Principal) (c1 c2 quizId studentId : String),
       getResult store p1 c1 quizId studentId
         = getResult store p2 c2 quizId studentId)
    ∧ (∀ (store : Store) (p : Principal) (cid quizId studentId : String)
         (r : StudentResultRec),
       findStudentResult store studentId quizId = some r →
       getResult store p cid quizId studentId = .ok r.score r.out_of)
    ∧ (∀ (store : Store) (p : Principal) (cid quizId studentId : String),
       findStudentResult store studentId quizId = none →
       getResult store p cid quizId studentId = .notFound) :=
  ⟨fun _ _ _ _ _ _ _ => rfl,
   fun _ _ _ _ _ _ h => by simp [getResult, h],
   fun _ _ _ _ _ h => by simp [getResult, h]⟩

end QuizApp
